import Mathlib

/-!
Verification of the Agent Runtime Constraint Simulator.

The repository consists of a Streamlit dashboard (`app.py`) driving a core
decision engine (`source.py`: `PolicyEngine` semantics, `AgentSimulator`
state machine, sample-data creation).  The dashboard and its tests are in
the repository; the core engine module itself is not, so the engine is
modelled from the specification while the dashboard handlers are embedded
directly from `app.py`.
-/

namespace AgentSim

/-- Access level of a tool, one of read-only, write, execute. -/
inductive AccessLevel where
  | readOnly
  | write
  | execute
deriving DecidableEq, Repr

/-- Risk class of a tool, one of low, medium, high, critical. -/
inductive RiskClass where
  | low
  | medium
  | high
  | critical
deriving DecidableEq, Repr

/-- A registry entry: a named capability with access level, risk class and a
bound deterministic mock behavior standing in for the real call. -/
structure Tool where
  tool_name : String
  description : String
  access_level : AccessLevel
  risk_class : RiskClass
  mock_function_name : String
  mock : List (String × String) → String

/-- Approval triggers of a policy: access levels and risk classes whose match
forces human approval. -/
structure ApprovalRequiredFor where
  access_levels : List AccessLevel
  risk_classes : List RiskClass
deriving DecidableEq, Repr

/-- The agent policy: allowed tools, step and budget ceilings, approval
triggers and a descriptive escalation directive. -/
structure Policy where
  allowed_tools : List String
  max_steps_per_run : Int
  budget_limit : Int
  approval_required_for : ApprovalRequiredFor
  escalation_rule : String
deriving DecidableEq, Repr

/-- One entry of a task's action sequence: tool name, parameter mapping and
declared cost. -/
structure ActionSpec where
  tool_name : String
  params : List (String × String)
  cost : Int
deriving DecidableEq, Repr

/-- A task: identity, description, ordered expected actions and an expected
outcome label used only for reporting. -/
structure Task where
  task_id : String
  task_description : String
  expected_actions : List ActionSpec
  expected_outcome : String
deriving DecidableEq, Repr

/-- Outcome of a policy evaluation. -/
inductive Outcome where
  | Approved
  | RequiresApproval (reason : String)
  | Denied (reason : String)
deriving DecidableEq, Repr

/-- The live run counters a proposed action is evaluated against: current
step count and current spent budget. -/
structure Counters where
  step : Nat
  spent : Int
deriving DecidableEq, Repr

/-- Registry lookup by tool name. -/
def lookupTool (registry : List Tool) (name : String) : Option Tool :=
  registry.find? fun t => t.tool_name == name

/-- Modelled from the spec: `source.py` (the `PolicyEngine`) is not in the
repository, only its caller `app.py` is.  Pure decision function
`evaluate(run_state, policy, tool, action)` of section 4.1, first match
wins: (1) tool existence, (2) tool permission, (3) step limit, (4) budget
limit, (5) approval gate, otherwise Approved. -/
def evaluate (registry : List Tool) (c : Counters) (policy : Policy)
    (a : ActionSpec) : Outcome :=
  match lookupTool registry a.tool_name with
  | none => .Denied "unknown tool"
  | some tool =>
    if a.tool_name ∉ policy.allowed_tools then
      .Denied "tool not permitted"
    else if (c.step : Int) + 1 > policy.max_steps_per_run then
      .Denied "step limit exceeded"
    else if c.spent + a.cost > policy.budget_limit then
      .Denied "budget exceeded"
    else if tool.access_level ∈ policy.approval_required_for.access_levels ∨
        tool.risk_class ∈ policy.approval_required_for.risk_classes then
      .RequiresApproval "access-level/risk-class gate"
    else
      .Approved

/-- Condition 1 of the evaluation order: the proposed tool name is not in
the registry. -/
def unknownTool (registry : List Tool) (a : ActionSpec) : Prop :=
  (lookupTool registry a.tool_name).isNone = true

/-- Condition 2 of the evaluation order: the tool is not among the policy's
allowed tools. -/
def notPermitted (policy : Policy) (a : ActionSpec) : Prop :=
  a.tool_name ∉ policy.allowed_tools

/-- Condition 3 of the evaluation order: taking one more step would exceed
the step ceiling. -/
def stepExceeded (c : Counters) (policy : Policy) : Prop :=
  (c.step : Int) + 1 > policy.max_steps_per_run

/-- Condition 4 of the evaluation order: charging the action's cost would
exceed the budget ceiling. -/
def budgetExceeded (c : Counters) (policy : Policy) (a : ActionSpec) : Prop :=
  c.spent + a.cost > policy.budget_limit

/-- Condition 5 of the evaluation order: the tool's access level or risk
class is among the policy's approval triggers. -/
def approvalGated (registry : List Tool) (policy : Policy) (a : ActionSpec) : Prop :=
  ∃ tool, lookupTool registry a.tool_name = some tool ∧
    (tool.access_level ∈ policy.approval_required_for.access_levels ∨
     tool.risk_class ∈ policy.approval_required_for.risk_classes)

/-- States of the per-task execution state machine. -/
inductive TaskState where
  | INIT
  | PLAN
  | ACT
  | REVIEW
  | APPROVAL_REQUIRED
  | COMPLETE
  | VIOLATION
deriving DecidableEq, Repr

/-- Kind of a trace event: a policy decision on a proposal, an approved
execution, or a task completion. -/
inductive EventKind where
  | decision
  | execution
  | completion
deriving DecidableEq, Repr

/-- An immutable trace event: task id, step index, event kind, policy
outcome when applicable, mock result when executed, resulting state and the
cost charged. -/
structure TraceEvent where
  task_id : String
  step_index : Nat
  kind : EventKind
  tool_name : Option String
  outcome : Option Outcome
  result : Option String
  state : TaskState
  cost_charged : Int
deriving DecidableEq, Repr

/-- An immutable violation record: task id, step index, violation kind and
human-readable detail. -/
structure Violation where
  task_id : String
  step_index : Nat
  kind : String
  detail : String
deriving DecidableEq, Repr

/-- Result of driving one task: its trace events, its violations, its
terminal state and the final counters. -/
structure TaskRunResult where
  events : List TraceEvent
  violations : List Violation
  final_state : TaskState
  final_counters : Counters

/-- The mock result of an action: the bound mock behavior of the resolved
tool applied to the action's parameters. -/
def mockResult (registry : List Tool) (a : ActionSpec) : String :=
  match lookupTool registry a.tool_name with
  | some tool => tool.mock a.params
  | none => ""

/-- The execution trace event appended for an approved action. -/
def executionEvent (registry : List Tool) (tid : String) (c : Counters)
    (a : ActionSpec) : TraceEvent :=
  { task_id := tid, step_index := c.step, kind := .execution,
    tool_name := some a.tool_name, outcome := some .Approved,
    result := some (mockResult registry a), state := .REVIEW,
    cost_charged := a.cost }

/-- The trace event appended for a denied or approval-gated decision. -/
def decisionEvent (tid : String) (c : Counters) (a : ActionSpec)
    (o : Outcome) (s : TaskState) : TraceEvent :=
  { task_id := tid, step_index := c.step, kind := .decision,
    tool_name := some a.tool_name, outcome := some o, result := none,
    state := s, cost_charged := 0 }

/-- The trace event appended when a task's action queue is exhausted. -/
def completionEvent (tid : String) (c : Counters) : TraceEvent :=
  { task_id := tid, step_index := c.step, kind := .completion,
    tool_name := none, outcome := none, result := none, state := .COMPLETE,
    cost_charged := 0 }

/-- Modelled from the spec: `source.py` (the `AgentSimulator` per-task
transition loop of section 4.2) is not in the repository.  Drives the
remaining actions of one task: each action is evaluated against the live
counters; on Approved the cost is charged, the step counter incremented and
an execution event appended; on RequiresApproval or Denied one trace event
and one violation are appended and the task halts in APPROVAL_REQUIRED
resp. VIOLATION; an exhausted queue ends the task in COMPLETE. -/
def runActions (registry : List Tool) (policy : Policy) (tid : String) :
    List ActionSpec → Counters → TaskRunResult
  | [], c => ⟨[completionEvent tid c], [], .COMPLETE, c⟩
  | a :: rest, c =>
    match evaluate registry c policy a with
    | .Approved =>
      let r := runActions registry policy tid rest ⟨c.step + 1, c.spent + a.cost⟩
      ⟨executionEvent registry tid c a :: r.events, r.violations,
       r.final_state, r.final_counters⟩
    | .RequiresApproval reason =>
      ⟨[decisionEvent tid c a (.RequiresApproval reason) .APPROVAL_REQUIRED],
       [⟨tid, c.step, "approval required", reason⟩], .APPROVAL_REQUIRED, c⟩
    | .Denied reason =>
      ⟨[decisionEvent tid c a (.Denied reason) .VIOLATION],
       [⟨tid, c.step, "denied", reason⟩], .VIOLATION, c⟩

/-- Modelled from the spec: counters are scoped per task and reset at the
start of each task (section 4.2 item 7), so one task always starts from
step 0 and spent 0. -/
def runTask (registry : List Tool) (policy : Policy) (t : Task) : TaskRunResult :=
  runActions registry policy t.task_id t.expected_actions ⟨0, 0⟩

/-- Modelled from the spec: `run_all_tasks` of the missing `source.py`
processes every task strictly in order, appending each task's events and
violations to the run-level trace and violation list; a halted task never
stops the run. -/
def run_all_tasks (registry : List Tool) (policy : Policy) :
    List Task → List TraceEvent × List Violation
  | [] => ([], [])
  | t :: rest =>
    let r := runTask registry policy t
    let more := run_all_tasks registry policy rest
    (r.events ++ more.1, r.violations ++ more.2)

/-- The warning attached to the run for an allowed tool missing from the
registry. -/
def allowedToolWarning (name : String) : String :=
  "configuration warning: allowed tool not in registry: " ++ name

/-- The warning attached to the run for a zero or negative step ceiling. -/
def stepCeilingWarning : String :=
  "configuration warning: zero or negative step ceiling"

/-- The warning attached to the run for a zero or negative budget ceiling. -/
def budgetCeilingWarning : String :=
  "configuration warning: zero or negative budget ceiling"

/-- The warning attached to the run for a negative declared action cost. -/
def negativeCostWarning (tid : String) (toolName : String) : String :=
  "configuration warning: negative action cost in task " ++ tid ++
    " for tool " ++ toolName

/-- Modelled from the spec: configuration errors (section 7) — a policy
entry naming a tool absent from the registry, a zero/negative step or
budget ceiling, a negative declared cost — are detected at run start and
collected as non-fatal warnings. -/
def configWarnings (registry : List Tool) (policy : Policy)
    (tasks : List Task) : List String :=
  ((policy.allowed_tools.filter fun n => (lookupTool registry n).isNone).map
      allowedToolWarning) ++
  (if policy.max_steps_per_run ≤ 0 then [stepCeilingWarning] else []) ++
  (if policy.budget_limit ≤ 0 then [budgetCeilingWarning] else []) ++
  (tasks.flatMap fun t =>
    (t.expected_actions.filter fun a => a.cost < 0).map fun a =>
      negativeCostWarning t.task_id a.tool_name)

/-- A finished run: the configuration warnings attached at start, and the
produced trace and violation list. -/
structure RunResult where
  warnings : List String
  trace : List TraceEvent
  violations : List Violation

/-- Modelled from the spec: one simulation run — configuration warnings are
collected at run start, then every task is executed; warnings never abort
execution. -/
def runSimulation (registry : List Tool) (policy : Policy)
    (tasks : List Task) : RunResult :=
  let out := run_all_tasks registry policy tasks
  ⟨configWarnings registry policy tasks, out.1, out.2⟩

/-- Whether every action of the list, evaluated in sequence from the given
counters with the approved updates applied, is Approved. -/
def allApprovedB (registry : List Tool) (policy : Policy) :
    List ActionSpec → Counters → Bool
  | [], _ => true
  | a :: rest, c =>
    if evaluate registry c policy a = .Approved then
      allApprovedB registry policy rest ⟨c.step + 1, c.spent + a.cost⟩
    else
      false

/-- The dashboard pages offered by the sidebar navigation of `app.py`. -/
inductive Page where
  | Overview
  | ToolRegistryEditor
  | PolicyEditor
  | TaskRunner
  | SimulationResults
  | ExportPanel
deriving DecidableEq, Repr

/-- The Streamlit session state of `app.py` (lines 20 to 38): the loaded
registry, policy and tasks, the stored simulation results, the run
identifier and output location, and the current page.  An empty policy
dict is embedded as `none`. -/
structure SessionState where
  tool_registry : List Tool
  agent_policy : Option Policy
  task_definitions : List Task
  execution_trace : List TraceEvent
  violations_summary : List Violation
  run_id : Option String
  current_run_output_dir : Option String
  page : Page

/-- Deterministic mock behavior bound to the market data reading tool. -/
def mock_read_market_data : List (String × String) → String :=
  fun _ => "market data ok"

/-- Deterministic mock behavior bound to the portfolio update tool. -/
def mock_update_portfolio : List (String × String) → String :=
  fun _ => "portfolio updated"

/-- Modelled from the spec: `create_tool_registry` of the missing
`source.py` writes the sample registry; its content follows the section 8
scenario and the test fixtures. -/
def sample_tool_registry : List Tool :=
  [⟨"MarketDataAPI_Read", "Read market data", .readOnly, .low,
    "mock_read_market_data", mock_read_market_data⟩,
   ⟨"Portfolio_Update", "Update portfolio", .write, .critical,
    "mock_update_portfolio", mock_update_portfolio⟩]

/-- Modelled from the spec: `create_agent_policy` of the missing
`source.py` writes the sample policy; its content follows the section 8
scenario and the test fixtures. -/
def sample_agent_policy : Policy :=
  ⟨["MarketDataAPI_Read"], 5, 100, ⟨[.write], [.critical]⟩,
   "Notify Security Team and Terminate Agent"⟩

/-- Modelled from the spec: `create_task_definitions` of the missing
`source.py` writes the sample tasks; their content follows the section 8
scenario and the test fixtures. -/
def sample_task_definitions : List Task :=
  [⟨"task_1", "Read market data",
    [⟨"MarketDataAPI_Read", [("query", "tech stock trends")], 10⟩],
    "Success"⟩,
   ⟨"task_2", "Update portfolio (should require approval)",
    [⟨"Portfolio_Update", [("symbol", "ABC"), ("quantity", "100")], 50⟩],
    "Approval Required"⟩]

/-- Modelled from the spec: the run identifier generated by the missing
`AgentSimulator`; only its presence matters to the dashboard claims. -/
def generatedRunId : String := "session09_run"

/-- The run-scoped output location for a run identifier. -/
def outputDirFor (rid : String) : String := "reports/session09/" ++ rid

/-- The error shown by the Run Agent Simulation handler when an input is
missing (`app.py` line 283). -/
def missingDataError : String :=
  "Please ensure Tool Registry, Agent Policy, and Task Definitions are loaded/configured before running."

/-- Embeds the Initialize/Reset Sample Data button handler of `app.py`
(lines 66 to 91): the sample registry, policy and tasks are recreated and
loaded into session state, the stored simulation results are cleared, and
the page navigates back to Overview. -/
def resetSampleDataClick (s : SessionState) : SessionState :=
  { s with tool_registry := sample_tool_registry,
           agent_policy := some sample_agent_policy,
           task_definitions := sample_task_definitions,
           execution_trace := [],
           violations_summary := [],
           run_id := none,
           current_run_output_dir := none,
           page := .Overview }

/-- Embeds the Run Agent Simulation button handler of `app.py` (lines 281
to 306): with any of registry, policy or tasks empty an error is shown and
nothing runs; otherwise the simulator runs, its results replace the stored
ones and the page navigates to Simulation and Results. -/
def runAgentSimulationClick (s : SessionState) : SessionState × Option String :=
  if s.tool_registry.isEmpty || s.agent_policy.isNone || s.task_definitions.isEmpty then
    (s, some missingDataError)
  else
    match s.agent_policy with
    | none => (s, some missingDataError)
    | some pol =>
      let r := runSimulation s.tool_registry pol s.task_definitions
      ({ s with execution_trace := r.trace,
                violations_summary := r.violations,
                run_id := some generatedRunId,
                current_run_output_dir := some (outputDirFor generatedRunId),
                page := .SimulationResults }, none)

/-- A Streamlit multiselect only ever returns entries drawn from its
offered options. -/
def multiselectValue {α : Type} [DecidableEq α] (options chosen : List α) :
    List α :=
  chosen.filter fun x => x ∈ options

/-- A Streamlit number input with a minimum only ever returns a value at or
above that minimum. -/
def numberInputValue (minValue v : Int) : Int := max minValue v

/-- The tool names offered by the Policy Editor's allowed-tools multiselect
(`app.py` lines 177 to 178). -/
def registryToolNames (registry : List Tool) : List String :=
  registry.map Tool.tool_name

/-- Embeds the Policy Editor page and its Update Agent Policy button
(`app.py` lines 177 to 238): allowed tools come from a multiselect whose
options are the registry's tool names (entries outside the registry are
dropped), max steps from a number input with minimum 1, budget from a
number input with minimum 0, approval triggers from multiselects over the
fixed enumerations, and the escalation rule from a text input. -/
def updateAgentPolicyClick (registry : List Tool)
    (chosenAllowed : List String) (stepsInput budgetInput : Int)
    (chosenAccess : List AccessLevel) (chosenRisk : List RiskClass)
    (escalation : String) : Policy :=
  { allowed_tools := multiselectValue (registryToolNames registry) chosenAllowed,
    max_steps_per_run := numberInputValue 1 stepsInput,
    budget_limit := numberInputValue 0 budgetInput,
    approval_required_for :=
      ⟨multiselectValue [.readOnly, .write, .execute] chosenAccess,
       multiselectValue [.low, .medium, .high, .critical] chosenRisk⟩,
    escalation_rule := escalation }

/-! ## Helper lemmas -/

/-- An approved evaluation implies the step and budget ceilings are
respected after charging the action. -/
theorem evaluate_approved_bounds {registry : List Tool} {c : Counters}
    {policy : Policy} {a : ActionSpec}
    (h : evaluate registry c policy a = .Approved) :
    (c.step : Int) + 1 ≤ policy.max_steps_per_run ∧
    c.spent + a.cost ≤ policy.budget_limit := by
  unfold evaluate at h
  cases hl : lookupTool registry a.tool_name
  · rw [hl] at h
    simp at h
  · rw [hl] at h
    split_ifs at h
    all_goals omega

/-- Running an appended task list concatenates the traces and violation
lists of the two halves. -/
theorem run_all_tasks_append (registry : List Tool) (policy : Policy)
    (ts1 ts2 : List Task) :
    run_all_tasks registry policy (ts1 ++ ts2) =
      ((run_all_tasks registry policy ts1).1 ++ (run_all_tasks registry policy ts2).1,
       (run_all_tasks registry policy ts1).2 ++ (run_all_tasks registry policy ts2).2) := by
  induction ts1 with
  | nil => simp [run_all_tasks]
  | cons t rest ih => simp [run_all_tasks, ih]

/-! ## Claim theorems -/

/-- C1: `evaluate` checks its conditions in the fixed first-match-wins
order — tool existence, tool permission, step limit, budget limit, then
the approval gate — so the outcome and reported reason are determined by
the first failing condition, tool existence is checked before any policy
condition, and a Denied outcome always takes precedence over
RequiresApproval. -/
theorem evaluate_first_match_order (registry : List Tool) (c : Counters)
    (policy : Policy) (a : ActionSpec) :
    (unknownTool registry a →
      evaluate registry c policy a = .Denied "unknown tool") ∧
    (¬ unknownTool registry a → notPermitted policy a →
      evaluate registry c policy a = .Denied "tool not permitted") ∧
    (¬ unknownTool registry a → ¬ notPermitted policy a →
      stepExceeded c policy →
      evaluate registry c policy a = .Denied "step limit exceeded") ∧
    (¬ unknownTool registry a → ¬ notPermitted policy a →
      ¬ stepExceeded c policy → budgetExceeded c policy a →
      evaluate registry c policy a = .Denied "budget exceeded") ∧
    (¬ unknownTool registry a → ¬ notPermitted policy a →
      ¬ stepExceeded c policy → ¬ budgetExceeded c policy a →
      approvalGated registry policy a →
      evaluate registry c policy a =
        .RequiresApproval "access-level/risk-class gate") ∧
    (¬ unknownTool registry a → ¬ notPermitted policy a →
      ¬ stepExceeded c policy → ¬ budgetExceeded c policy a →
      ¬ approvalGated registry policy a →
      evaluate registry c policy a = .Approved) ∧
    (∀ reason, evaluate registry c policy a = .RequiresApproval reason →
      ¬ unknownTool registry a ∧ ¬ notPermitted policy a ∧
      ¬ stepExceeded c policy ∧ ¬ budgetExceeded c policy a) := by
  unfold evaluate unknownTool notPermitted stepExceeded budgetExceeded approvalGated
  cases hl : lookupTool registry a.tool_name
  · simp [hl]
  · simp only [hl, Option.isNone_some]
    split_ifs <;> simp_all

/-- Witness for C1: a tool absent from the sample registry is denied as an
unknown tool even though every other condition also fails. -/
theorem evaluate_first_match_order_witness :
    evaluate sample_tool_registry ⟨0, 0⟩ sample_agent_policy
      ⟨"Nonexistent", [], 5⟩ = .Denied "unknown tool" :=
  (evaluate_first_match_order sample_tool_registry ⟨0, 0⟩ sample_agent_policy
    ⟨"Nonexistent", [], 5⟩).1 rfl

/-- The counters stay within the policy ceilings throughout a task when
they start within them. -/
theorem runActions_counter_inv (registry : List Tool) (policy : Policy)
    (tid : String) (actions : List ActionSpec) :
    ∀ c : Counters, c.spent ≤ policy.budget_limit →
      (c.step : Int) ≤ policy.max_steps_per_run →
      (runActions registry policy tid actions c).final_counters.spent ≤
          policy.budget_limit ∧
        ((runActions registry policy tid actions c).final_counters.step : Int) ≤
          policy.max_steps_per_run := by
  induction actions with
  | nil =>
    intro c hb hs
    simpa [runActions] using ⟨hb, hs⟩
  | cons a rest ih =>
    intro c hb hs
    rcases h : evaluate registry c policy a with _ | reason | reason
    · have hbnd := evaluate_approved_bounds h
      have hmore := ih ⟨c.step + 1, c.spent + a.cost⟩ (by simpa using hbnd.2)
        (by push_cast; omega)
      simpa [runActions, h] using hmore
    · simpa [runActions, h] using ⟨hb, hs⟩
    · simpa [runActions, h] using ⟨hb, hs⟩

/-- C2: an approved action advances the state machine to exactly
`spent + cost` and `step + 1`; a RequiresApproval or Denied action leaves
the counters unchanged; and starting within the ceilings the counters
never exceed the policy ceilings in any reachable state. -/
theorem approved_updates_counters_within_ceilings :
    (∀ (registry : List Tool) (policy : Policy) (tid : String)
        (a : ActionSpec) (rest : List ActionSpec) (c : Counters),
      evaluate registry c policy a = .Approved →
      runActions registry policy tid (a :: rest) c =
        ⟨executionEvent registry tid c a ::
            (runActions registry policy tid rest
              ⟨c.step + 1, c.spent + a.cost⟩).events,
          (runActions registry policy tid rest
            ⟨c.step + 1, c.spent + a.cost⟩).violations,
          (runActions registry policy tid rest
            ⟨c.step + 1, c.spent + a.cost⟩).final_state,
          (runActions registry policy tid rest
            ⟨c.step + 1, c.spent + a.cost⟩).final_counters⟩) ∧
    (∀ (registry : List Tool) (policy : Policy) (tid : String)
        (a : ActionSpec) (rest : List ActionSpec) (c : Counters),
      evaluate registry c policy a ≠ .Approved →
      (runActions registry policy tid (a :: rest) c).final_counters = c) ∧
    (∀ (registry : List Tool) (policy : Policy) (tid : String)
        (actions : List ActionSpec) (c : Counters),
      c.spent ≤ policy.budget_limit →
      (c.step : Int) ≤ policy.max_steps_per_run →
      (runActions registry policy tid actions c).final_counters.spent ≤
          policy.budget_limit ∧
        ((runActions registry policy tid actions c).final_counters.step : Int) ≤
          policy.max_steps_per_run) := by
  refine ⟨?_, ?_, ?_⟩
  · intro registry policy tid a rest c h
    simp [runActions, h]
  · intro registry policy tid a rest c h
    rcases he : evaluate registry c policy a with _ | reason | reason
    · exact absurd he h
    · simp [runActions, he]
    · simp [runActions, he]
  · intro registry policy tid actions c hb hs
    exact runActions_counter_inv registry policy tid actions c hb hs

/-- Witness for C2: under the sample inputs the approved market-data read
continues from counters step 1 and spent 10, the denied portfolio update
leaves the counters at zero, and a run from zero counters stays within the
sample ceilings. -/
theorem approved_updates_counters_within_ceilings_witness :
    (runActions sample_tool_registry sample_agent_policy "task_1"
        [⟨"MarketDataAPI_Read", [("query", "tech stock trends")], 10⟩] ⟨0, 0⟩ =
      ⟨executionEvent sample_tool_registry "task_1" ⟨0, 0⟩
          ⟨"MarketDataAPI_Read", [("query", "tech stock trends")], 10⟩ ::
          (runActions sample_tool_registry sample_agent_policy "task_1" []
            ⟨1, 10⟩).events,
        (runActions sample_tool_registry sample_agent_policy "task_1" []
          ⟨1, 10⟩).violations,
        (runActions sample_tool_registry sample_agent_policy "task_1" []
          ⟨1, 10⟩).final_state,
        (runActions sample_tool_registry sample_agent_policy "task_1" []
          ⟨1, 10⟩).final_counters⟩) ∧
    ((runActions sample_tool_registry sample_agent_policy "task_2"
        [⟨"Portfolio_Update", [], 50⟩] ⟨0, 0⟩).final_counters = ⟨0, 0⟩) ∧
    ((runActions sample_tool_registry sample_agent_policy "task_1"
        [⟨"MarketDataAPI_Read", [], 10⟩] ⟨0, 0⟩).final_counters.spent ≤
        sample_agent_policy.budget_limit ∧
      ((runActions sample_tool_registry sample_agent_policy "task_1"
        [⟨"MarketDataAPI_Read", [], 10⟩] ⟨0, 0⟩).final_counters.step : Int) ≤
        sample_agent_policy.max_steps_per_run) :=
  ⟨approved_updates_counters_within_ceilings.1 sample_tool_registry
      sample_agent_policy "task_1"
      ⟨"MarketDataAPI_Read", [("query", "tech stock trends")], 10⟩ [] ⟨0, 0⟩ rfl,
   approved_updates_counters_within_ceilings.2.1 sample_tool_registry
      sample_agent_policy "task_2" ⟨"Portfolio_Update", [], 50⟩ [] ⟨0, 0⟩
      (by decide),
   approved_updates_counters_within_ceilings.2.2 sample_tool_registry
      sample_agent_policy "task_1" [⟨"MarketDataAPI_Read", [], 10⟩] ⟨0, 0⟩
      (by decide) (by decide)⟩

/-- C3: the engine is a deterministic function of its inputs — running the
simulation twice on identical (registry, policy, tasks) inputs produces
identical execution traces and identical violation lists, with no
randomness or wall-clock-dependent branching in the decision logic. -/
theorem engine_deterministic (reg1 reg2 : List Tool) (pol1 pol2 : Policy)
    (ts1 ts2 : List Task) (hr : reg1 = reg2) (hp : pol1 = pol2)
    (ht : ts1 = ts2) :
    (runSimulation reg1 pol1 ts1).trace = (runSimulation reg2 pol2 ts2).trace ∧
    (runSimulation reg1 pol1 ts1).violations =
      (runSimulation reg2 pol2 ts2).violations := by
  subst hr
  subst hp
  subst ht
  exact ⟨rfl, rfl⟩

/-- Witness for C3: two runs of the sample inputs agree on trace and
violations. -/
theorem engine_deterministic_witness :
    (runSimulation sample_tool_registry sample_agent_policy
        sample_task_definitions).trace =
      (runSimulation sample_tool_registry sample_agent_policy
        sample_task_definitions).trace ∧
    (runSimulation sample_tool_registry sample_agent_policy
        sample_task_definitions).violations =
      (runSimulation sample_tool_registry sample_agent_policy
        sample_task_definitions).violations :=
  engine_deterministic sample_tool_registry sample_tool_registry
    sample_agent_policy sample_agent_policy sample_task_definitions
    sample_task_definitions rfl rfl rfl

/-- A halted task records exactly one violation; a completed task records
none; and the decision events of a task correspond one-to-one to its
violations. -/
theorem runActions_violation_count (registry : List Tool) (policy : Policy)
    (tid : String) (actions : List ActionSpec) :
    ∀ c : Counters,
      ((runActions registry policy tid actions c).violations.length =
        if (runActions registry policy tid actions c).final_state = .APPROVAL_REQUIRED ∨
            (runActions registry policy tid actions c).final_state = .VIOLATION
        then 1 else 0) ∧
      (((runActions registry policy tid actions c).events.filter
          fun e => e.kind == EventKind.decision).length =
        (runActions registry policy tid actions c).violations.length) := by
  induction actions with
  | nil =>
    intro c
    simp [runActions, completionEvent]
  | cons a rest ih =>
    intro c
    rcases h : evaluate registry c policy a with _ | reason | reason
    · simpa [runActions, h, executionEvent] using
        ih ⟨c.step + 1, c.spent + a.cost⟩
    · simp [runActions, h, decisionEvent]
    · simp [runActions, h, decisionEvent]

/-- C4: every Denied or RequiresApproval outcome is recorded as exactly one
violation and exactly one (decision) trace event, and a halted task never
halts the run — the tasks after it are still processed and contribute
their own trace and violations. -/
theorem nonapproved_recorded_once_run_continues :
    (∀ (registry : List Tool) (policy : Policy) (t : Task),
      (runTask registry policy t).final_state = .APPROVAL_REQUIRED ∨
        (runTask registry policy t).final_state = .VIOLATION →
      (runTask registry policy t).violations.length = 1) ∧
    (∀ (registry : List Tool) (policy : Policy) (t : Task),
      ((runTask registry policy t).events.filter
          fun e => e.kind == EventKind.decision).length =
        (runTask registry policy t).violations.length) ∧
    (∀ (registry : List Tool) (policy : Policy) (ts1 ts2 : List Task),
      run_all_tasks registry policy (ts1 ++ ts2) =
        ((run_all_tasks registry policy ts1).1 ++
            (run_all_tasks registry policy ts2).1,
          (run_all_tasks registry policy ts1).2 ++
            (run_all_tasks registry policy ts2).2)) := by
  refine ⟨?_, ?_, ?_⟩
  · intro registry policy t hhalt
    have h := (runActions_violation_count registry policy t.task_id
      t.expected_actions ⟨0, 0⟩).1
    unfold runTask at hhalt ⊢
    rw [h, if_pos hhalt]
  · intro registry policy t
    exact (runActions_violation_count registry policy t.task_id
      t.expected_actions ⟨0, 0⟩).2
  · intro registry policy ts1 ts2
    exact run_all_tasks_append registry policy ts1 ts2

/-- Witness for C4: the denied sample portfolio task records exactly one
violation. -/
theorem nonapproved_recorded_once_run_continues_witness :
    (runTask sample_tool_registry sample_agent_policy
        ⟨"task_2", "Update portfolio (should require approval)",
          [⟨"Portfolio_Update", [("symbol", "ABC"), ("quantity", "100")], 50⟩],
          "Approval Required"⟩).violations.length = 1 :=
  nonapproved_recorded_once_run_continues.1 sample_tool_registry
    sample_agent_policy
    ⟨"task_2", "Update portfolio (should require approval)",
      [⟨"Portfolio_Update", [("symbol", "ABC"), ("quantity", "100")], 50⟩],
      "Approval Required"⟩ (Or.inr (by decide))

/-- C5: counters are scoped per task — every task of a run is driven from
freshly reset counters (step 0, spent 0), so its contribution to the trace
and violation lists does not depend on the actions of any earlier task of
the same run. -/
theorem counters_reset_per_task (registry : List Tool) (policy : Policy)
    (ts : List Task) (t : Task) :
    run_all_tasks registry policy (ts ++ [t]) =
      ((run_all_tasks registry policy ts).1 ++
          (runActions registry policy t.task_id t.expected_actions ⟨0, 0⟩).events,
        (run_all_tasks registry policy ts).2 ++
          (runActions registry policy t.task_id t.expected_actions ⟨0, 0⟩).violations) := by
  rw [run_all_tasks_append registry policy ts [t]]
  simp [run_all_tasks, runTask]

/-- A run of actions that are all approved ends in COMPLETE with no
violations. -/
theorem allApproved_complete (registry : List Tool) (policy : Policy)
    (tid : String) (actions : List ActionSpec) :
    ∀ c : Counters, allApprovedB registry policy actions c = true →
      (runActions registry policy tid actions c).final_state = .COMPLETE ∧
      (runActions registry policy tid actions c).violations = [] := by
  induction actions with
  | nil =>
    intro c _
    simp [runActions]
  | cons a rest ih =>
    intro c hall
    unfold allApprovedB at hall
    split_ifs at hall with h
    · simpa [runActions, h] using ih ⟨c.step + 1, c.spent + a.cost⟩ hall

/-- C6: a task whose every action evaluates to Approved terminates in
COMPLETE with zero violations; a task whose first action evaluates to
RequiresApproval terminates in APPROVAL_REQUIRED with exactly one
violation and no trace events beyond the one recording that decision. -/
theorem task_terminal_outcomes (registry : List Tool) (policy : Policy)
    (t : Task) :
    (allApprovedB registry policy t.expected_actions ⟨0, 0⟩ = true →
      (runTask registry policy t).final_state = .COMPLETE ∧
      (runTask registry policy t).violations = []) ∧
    (∀ (a : ActionSpec) (rest : List ActionSpec) (reason : String),
      t.expected_actions = a :: rest →
      evaluate registry ⟨0, 0⟩ policy a = .RequiresApproval reason →
      (runTask registry policy t).final_state = .APPROVAL_REQUIRED ∧
      (runTask registry policy t).violations.length = 1 ∧
      (runTask registry policy t).events =
        [decisionEvent t.task_id ⟨0, 0⟩ a (.RequiresApproval reason)
          .APPROVAL_REQUIRED]) := by
  constructor
  · intro hall
    exact allApproved_complete registry policy t.task_id t.expected_actions
      ⟨0, 0⟩ hall
  · intro a rest reason hacts heval
    unfold runTask
    rw [hacts]
    simp [runActions, heval]

/-- Witness for C6: with the portfolio tool allowed, the sample portfolio
task's first action is approval-gated and the task halts in
APPROVAL_REQUIRED with one violation and a single trace event; the sample
market-data task is fully approved and completes without violations. -/
theorem task_terminal_outcomes_witness :
    ((runTask sample_tool_registry sample_agent_policy
        ⟨"task_1", "Read market data",
          [⟨"MarketDataAPI_Read", [("query", "tech stock trends")], 10⟩],
          "Success"⟩).final_state = .COMPLETE ∧
      (runTask sample_tool_registry sample_agent_policy
        ⟨"task_1", "Read market data",
          [⟨"MarketDataAPI_Read", [("query", "tech stock trends")], 10⟩],
          "Success"⟩).violations = []) ∧
    ((runTask sample_tool_registry
        ⟨["MarketDataAPI_Read", "Portfolio_Update"], 5, 100,
          ⟨[.write], [.critical]⟩, "Notify Security Team and Terminate Agent"⟩
        ⟨"task_2", "Update portfolio (should require approval)",
          [⟨"Portfolio_Update", [("symbol", "ABC"), ("quantity", "100")], 50⟩],
          "Approval Required"⟩).final_state = .APPROVAL_REQUIRED ∧
      (runTask sample_tool_registry
        ⟨["MarketDataAPI_Read", "Portfolio_Update"], 5, 100,
          ⟨[.write], [.critical]⟩, "Notify Security Team and Terminate Agent"⟩
        ⟨"task_2", "Update portfolio (should require approval)",
          [⟨"Portfolio_Update", [("symbol", "ABC"), ("quantity", "100")], 50⟩],
          "Approval Required"⟩).violations.length = 1 ∧
      (runTask sample_tool_registry
        ⟨["MarketDataAPI_Read", "Portfolio_Update"], 5, 100,
          ⟨[.write], [.critical]⟩, "Notify Security Team and Terminate Agent"⟩
        ⟨"task_2", "Update portfolio (should require approval)",
          [⟨"Portfolio_Update", [("symbol", "ABC"), ("quantity", "100")], 50⟩],
          "Approval Required"⟩).events =
        [decisionEvent "task_2" ⟨0, 0⟩
          ⟨"Portfolio_Update", [("symbol", "ABC"), ("quantity", "100")], 50⟩
          (.RequiresApproval "access-level/risk-class gate")
          .APPROVAL_REQUIRED]) :=
  ⟨(task_terminal_outcomes sample_tool_registry sample_agent_policy
      ⟨"task_1", "Read market data",
        [⟨"MarketDataAPI_Read", [("query", "tech stock trends")], 10⟩],
        "Success"⟩).1 (by decide),
   (task_terminal_outcomes sample_tool_registry
      ⟨["MarketDataAPI_Read", "Portfolio_Update"], 5, 100,
        ⟨[.write], [.critical]⟩, "Notify Security Team and Terminate Agent"⟩
      ⟨"task_2", "Update portfolio (should require approval)",
        [⟨"Portfolio_Update", [("symbol", "ABC"), ("quantity", "100")], 50⟩],
        "Approval Required"⟩).2
      ⟨"Portfolio_Update", [("symbol", "ABC"), ("quantity", "100")], 50⟩ []
      "access-level/risk-class gate" rfl (by decide)⟩

/-- C7: configuration errors — an allowed-tools entry naming a tool absent
from the registry, a negative declared action cost, a zero/negative step
or budget ceiling — are detected at run start and attached to the run as
non-fatal warnings, and the trace and violations of the run are exactly
those of executing all tasks, so execution proceeds regardless of the
warnings. -/
theorem config_errors_warn_nonfatal (registry : List Tool) (policy : Policy)
    (tasks : List Task) :
    (∀ n, n ∈ policy.allowed_tools → (lookupTool registry n).isNone = true →
      allowedToolWarning n ∈ (runSimulation registry policy tasks).warnings) ∧
    (policy.max_steps_per_run ≤ 0 →
      stepCeilingWarning ∈ (runSimulation registry policy tasks).warnings) ∧
    (policy.budget_limit ≤ 0 →
      budgetCeilingWarning ∈ (runSimulation registry policy tasks).warnings) ∧
    (∀ t a, t ∈ tasks → a ∈ t.expected_actions → a.cost < 0 →
      negativeCostWarning t.task_id a.tool_name ∈
        (runSimulation registry policy tasks).warnings) ∧
    ((runSimulation registry policy tasks).trace =
        (run_all_tasks registry policy tasks).1 ∧
      (runSimulation registry policy tasks).violations =
        (run_all_tasks registry policy tasks).2) := by
  refine ⟨?_, ?_, ?_, ?_, rfl, rfl⟩
  · intro n hmem hnone
    simp only [runSimulation, configWarnings, List.mem_append, List.mem_map,
      List.mem_filter]
    exact Or.inl (Or.inl (Or.inl ⟨n, ⟨hmem, hnone⟩, rfl⟩))
  · intro hstep
    simp only [runSimulation, configWarnings, List.mem_append]
    exact Or.inl (Or.inl (Or.inr (by simp [hstep])))
  · intro hbudget
    simp only [runSimulation, configWarnings, List.mem_append]
    exact Or.inl (Or.inr (by simp [hbudget]))
  · intro t a ht ha hcost
    simp only [runSimulation, configWarnings, List.mem_append, List.mem_flatMap,
      List.mem_map, List.mem_filter]
    exact Or.inr ⟨t, ht, a, ⟨ha, by simpa using hcost⟩, rfl⟩

/-- Witness for C7: a policy allowing a ghost tool with a zero step ceiling
and a negative budget, run over a task with a negative cost, yields all
four configuration warnings while the run still executes all tasks. -/
theorem config_errors_warn_nonfatal_witness :
    allowedToolWarning "Ghost" ∈
      (runSimulation sample_tool_registry
        ⟨["Ghost"], 0, -1, ⟨[], []⟩, "note"⟩
        [⟨"task_neg", "negative cost", [⟨"MarketDataAPI_Read", [], -4⟩],
          "Denied"⟩]).warnings ∧
    stepCeilingWarning ∈
      (runSimulation sample_tool_registry
        ⟨["Ghost"], 0, -1, ⟨[], []⟩, "note"⟩
        [⟨"task_neg", "negative cost", [⟨"MarketDataAPI_Read", [], -4⟩],
          "Denied"⟩]).warnings ∧
    budgetCeilingWarning ∈
      (runSimulation sample_tool_registry
        ⟨["Ghost"], 0, -1, ⟨[], []⟩, "note"⟩
        [⟨"task_neg", "negative cost", [⟨"MarketDataAPI_Read", [], -4⟩],
          "Denied"⟩]).warnings ∧
    negativeCostWarning "task_neg" "MarketDataAPI_Read" ∈
      (runSimulation sample_tool_registry
        ⟨["Ghost"], 0, -1, ⟨[], []⟩, "note"⟩
        [⟨"task_neg", "negative cost", [⟨"MarketDataAPI_Read", [], -4⟩],
          "Denied"⟩]).warnings :=
  ⟨(config_errors_warn_nonfatal sample_tool_registry
      ⟨["Ghost"], 0, -1, ⟨[], []⟩, "note"⟩
      [⟨"task_neg", "negative cost", [⟨"MarketDataAPI_Read", [], -4⟩],
        "Denied"⟩]).1 "Ghost" (by decide) rfl,
   (config_errors_warn_nonfatal sample_tool_registry
      ⟨["Ghost"], 0, -1, ⟨[], []⟩, "note"⟩
      [⟨"task_neg", "negative cost", [⟨"MarketDataAPI_Read", [], -4⟩],
        "Denied"⟩]).2.1 (by decide),
   (config_errors_warn_nonfatal sample_tool_registry
      ⟨["Ghost"], 0, -1, ⟨[], []⟩, "note"⟩
      [⟨"task_neg", "negative cost", [⟨"MarketDataAPI_Read", [], -4⟩],
        "Denied"⟩]).2.2.1 (by decide),
   (config_errors_warn_nonfatal sample_tool_registry
      ⟨["Ghost"], 0, -1, ⟨[], []⟩, "note"⟩
      [⟨"task_neg", "negative cost", [⟨"MarketDataAPI_Read", [], -4⟩],
        "Denied"⟩]).2.2.2.1
      ⟨"task_neg", "negative cost", [⟨"MarketDataAPI_Read", [], -4⟩], "Denied"⟩
      ⟨"MarketDataAPI_Read", [], -4⟩ (by decide) (by decide) (by decide)⟩

/-- C8: clicking Run Agent Simulation with any of the tool registry, agent
policy or task definitions empty shows the missing-data error and runs no
simulation — the session state, in particular the stored execution trace,
violations summary, run identifier and output directory, is unchanged. -/
theorem run_click_missing_data_unchanged (s : SessionState)
    (h : s.tool_registry = [] ∨ s.agent_policy = none ∨
      s.task_definitions = []) :
    runAgentSimulationClick s = (s, some missingDataError) ∧
    (runAgentSimulationClick s).1.execution_trace = s.execution_trace ∧
    (runAgentSimulationClick s).1.violations_summary = s.violations_summary ∧
    (runAgentSimulationClick s).1.run_id = s.run_id ∧
    (runAgentSimulationClick s).1.current_run_output_dir =
      s.current_run_output_dir := by
  have hmain : runAgentSimulationClick s = (s, some missingDataError) := by
    unfold runAgentSimulationClick
    rcases h with h | h | h <;> simp [h]
  refine ⟨hmain, ?_, ?_, ?_, ?_⟩ <;> rw [hmain]

/-- Witness for C8: clicking on a fully empty session changes nothing and
reports the missing-data error. -/
theorem run_click_missing_data_unchanged_witness :
    runAgentSimulationClick ⟨[], none, [], [], [], none, none, .TaskRunner⟩ =
      (⟨[], none, [], [], [], none, none, .TaskRunner⟩,
        some missingDataError) :=
  (run_click_missing_data_unchanged
    ⟨[], none, [], [], [], none, none, .TaskRunner⟩ (Or.inl rfl)).1

/-- C9: clicking Initialize/Reset Sample Data always clears the previous
simulation results — the stored trace and violations become empty, the run
identifier and output directory become none — while the fresh sample
registry, policy and tasks are loaded and the page navigates back to
Overview. -/
theorem reset_click_clears_results (s : SessionState) :
    (resetSampleDataClick s).execution_trace = [] ∧
    (resetSampleDataClick s).violations_summary = [] ∧
    (resetSampleDataClick s).run_id = none ∧
    (resetSampleDataClick s).current_run_output_dir = none ∧
    (resetSampleDataClick s).tool_registry = sample_tool_registry ∧
    (resetSampleDataClick s).agent_policy = some sample_agent_policy ∧
    (resetSampleDataClick s).task_definitions = sample_task_definitions ∧
    (resetSampleDataClick s).page = .Overview :=
  ⟨rfl, rfl, rfl, rfl, rfl, rfl, rfl, rfl⟩

/-- C10: any policy saved through the Policy Editor has its allowed tools
drawn from the current registry (unknown names are dropped), a step
ceiling of at least 1 and a budget of at least 0. -/
theorem policy_editor_saved_invariants (registry : List Tool)
    (chosenAllowed : List String) (stepsInput budgetInput : Int)
    (chosenAccess : List AccessLevel) (chosenRisk : List RiskClass)
    (escalation : String) :
    (∀ n, n ∈ (updateAgentPolicyClick registry chosenAllowed stepsInput
        budgetInput chosenAccess chosenRisk escalation).allowed_tools →
      n ∈ registryToolNames registry) ∧
    1 ≤ (updateAgentPolicyClick registry chosenAllowed stepsInput budgetInput
        chosenAccess chosenRisk escalation).max_steps_per_run ∧
    0 ≤ (updateAgentPolicyClick registry chosenAllowed stepsInput budgetInput
        chosenAccess chosenRisk escalation).budget_limit := by
  refine ⟨?_, ?_, ?_⟩
  · intro n hn
    simp only [updateAgentPolicyClick, multiselectValue, List.mem_filter,
      decide_eq_true_eq] at hn
    exact hn.2
  · simp [updateAgentPolicyClick, numberInputValue]
  · simp [updateAgentPolicyClick, numberInputValue]

/-- Witness for C10: saving a selection containing a ghost tool together
with negative numeric inputs yields a policy whose surviving allowed tool
is registered, whose step ceiling is at least 1 and whose budget is at
least 0. -/
theorem policy_editor_saved_invariants_witness :
    "MarketDataAPI_Read" ∈ registryToolNames sample_tool_registry ∧
    1 ≤ (updateAgentPolicyClick sample_tool_registry
        ["MarketDataAPI_Read", "Ghost"] (-5) (-3) [] [] "note").max_steps_per_run ∧
    0 ≤ (updateAgentPolicyClick sample_tool_registry
        ["MarketDataAPI_Read", "Ghost"] (-5) (-3) [] [] "note").budget_limit :=
  ⟨(policy_editor_saved_invariants sample_tool_registry
      ["MarketDataAPI_Read", "Ghost"] (-5) (-3) [] [] "note").1
      "MarketDataAPI_Read" (by decide),
   (policy_editor_saved_invariants sample_tool_registry
      ["MarketDataAPI_Read", "Ghost"] (-5) (-3) [] [] "note").2.1,
   (policy_editor_saved_invariants sample_tool_registry
      ["MarketDataAPI_Read", "Ghost"] (-5) (-3) [] [] "note").2.2⟩

end AgentSim
